import Mathlib

/-!
Shallow embedding of `src/udev.c` (early udev dispatcher / query CLI).

C strings become Lean `String` (the bounded-copy helpers `strfieldcpy` /
`strncat` with `NAME_SIZE` bounds are modelled as unbounded copies, since
every value the claims touch is far below the bound).  C `int` results become
`Int`.  Reads of the process environment become an explicit `HotplugEnv`
record.  External collaborators (naming engine, device database, message bus,
libc `getopt`) are not part of `src/`; they are modelled from the spec where a
claim needs them, and each such definition is marked in its doc comment.
-/

namespace Udev

/-- Linux errno value used by the source via `-EINVAL`. -/
def EINVAL : Int := 22

/-- Linux errno value used by the source via `-EACCES`. -/
def EACCES : Int := 13

/-- `struct udevice`: the record fields the source reads and prints
(`dev->name`, `dev->symlink`, `dev->owner`, `dev->group`). -/
structure Udevice where
  name : String
  symlink : String
  owner : String
  group : String
deriving Repr, DecidableEq, Inhabited

/-- The persistent device database, keyed by sysfs path.  Modelled from the
spec: the database collaborator (`udevdb`) stores one record per path, path
unique across the database. -/
structure UdevDB where
  records : List (String × Udevice)
deriving Repr, DecidableEq, Inhabited

/-- Modelled from the spec: database `lookup(path) -> record?`. -/
def lookupDB (path : String) (db : UdevDB) : Option Udevice :=
  (db.records.find? (fun r => r.1 == path)).map (fun r => r.2)

/-- Modelled from the spec: database `insert_or_update(devpath, ...)`; the
path is the unique key, so an insert replaces any record under the same
path. -/
def dbInsert (path : String) (dev : Udevice) (db : UdevDB) : UdevDB :=
  ⟨(path, dev) :: db.records.filter (fun r => !(r.1 == path))⟩

/-- Modelled from the spec: database `remove(devpath, ...)` erases the record
stored under the path. -/
def dbErase (path : String) (db : UdevDB) : UdevDB :=
  ⟨db.records.filter (fun r => !(r.1 == path))⟩

/-- Modelled from the spec: `udev_add_device(devpath, subsystem)` (declared in
`udev.h`, body outside this slice) consults the naming engine for the record
of the device and inserts/updates it in the database keyed by `devpath`,
returning a success code.  The naming engine is abstracted as the function
argument `naming`. -/
def udev_add_device (naming : String → String → Udevice)
    (devpath subsystem : String) (db : UdevDB) : Int × UdevDB :=
  (0, dbInsert devpath (naming devpath subsystem) db)

/-- Modelled from the spec: `udev_remove_device(devpath, subsystem)` removes
the record stored under `devpath` from the database. -/
def udev_remove_device (devpath _subsystem : String) (db : UdevDB) :
    Int × UdevDB :=
  (0, dbErase devpath db)

/-- Modelled from the spec: `udevdb_get_dev(path, &dev)` returns `0` and
fills the record when the path is present, and a nonzero failure code
(`failCode`) otherwise. -/
def udevdb_get_dev (failCode : Int) (path : String) (db : UdevDB) :
    Int × Option Udevice :=
  match lookupDB path db with
  | some dev => (0, some dev)
  | none => (failCode, none)

/-- `needle` occurs as a contiguous run within `hay`: prefix match at each
suffix. -/
def listInfix (needle : List Char) : List Char → Bool
  | [] => needle.isEmpty
  | c :: rest => needle.isPrefixOf (c :: rest) || listInfix needle rest

/-- C `strstr(hay, needle) != NULL`: `needle` occurs as a contiguous
substring of `hay`. -/
def strstrB (hay needle : String) : Bool :=
  listInfix needle.data hay.data

/-- The `subsystem_blacklist` array of `udev.c`; in the source the array is
terminated by a sentinel empty string which the scan loop stops at, so the
list here carries exactly the proper entries. -/
def subsystem_blacklist : List String :=
  ["net", "scsi_host", "scsi_device", "usb_host", "pci_bus"]

/-- The blacklist scan loop of `udev_hotplug`: walk the array in order and
stop at the first exact `strcmp` match. -/
def blacklisted (subsystem : String) : Bool :=
  subsystem_blacklist.any (fun b => subsystem == b)

/-- The environment variables `udev_hotplug` reads through `get_devpath` /
`get_action` (`getenv` returns `NULL` when unset, hence `Option`). -/
structure HotplugEnv where
  devpath : Option String
  action : Option String
deriving Repr, DecidableEq

/-- The body of `udev_hotplug` up to the `exit` label: the accumulated
`retval`, the database state after the run, and which collaborator action
(if any) was dispatched, as `(action, devpath, subsystem)`.
`dbInitRet` is the result of the external `udevdb_init(UDEVDB_DEFAULT)`
call (`0` = success); a nonzero value skips the action, as in the source. -/
def udev_hotplug_raw (naming : String → String → Udevice) (dbInitRet : Int)
    (subsystem : String) (env : HotplugEnv) (db : UdevDB) :
    Int × UdevDB × Option (String × String × String) :=
  match env.devpath with
  | none => (-EINVAL, db, none)
  | some devpath =>
    if !(strstrB devpath "class" || strstrB devpath "block") then
      (-EINVAL, db, none)
    else if blacklisted subsystem then
      (-EINVAL, db, none)
    else
      match env.action with
      | none => (-EINVAL, db, none)
      | some action =>
        if dbInitRet ≠ 0 then
          (dbInitRet, db, none)
        else if action == "add" then
          let r := udev_add_device naming devpath subsystem db
          (r.1, r.2, some ("add", devpath, subsystem))
        else if action == "remove" then
          let r := udev_remove_device devpath subsystem db
          (r.1, r.2, some ("remove", devpath, subsystem))
        else
          (-EINVAL, db, none)

/-- The `exit` label of `udev_hotplug`:
`if (retval > 0) retval = 0; return -retval;`. -/
def hotplug_normalize (retval : Int) : Int :=
  -(if retval > 0 then 0 else retval)

/-- Observable outcome of one `udev_hotplug` invocation. -/
structure HotplugOutcome where
  status : Int
  db : UdevDB
  dispatched : Option (String × String × String)
deriving Repr, DecidableEq

/-- `udev_hotplug`: run the body and normalize the accumulated result at the
`exit` label. -/
def udev_hotplug (naming : String → String → Udevice) (dbInitRet : Int)
    (subsystem : String) (env : HotplugEnv) (db : UdevDB) : HotplugOutcome :=
  let r := udev_hotplug_raw naming dbInitRet subsystem env db
  ⟨hotplug_normalize r.1, r.2.1, r.2.2⟩

/-- `enum query_type` of `udev.c`. -/
inductive QueryType
  | NONE
  | NAME
  | SYMLINK
  | OWNER
  | GROUP
deriving Repr, DecidableEq

/-- The `switch(query)` block of `udev_user` that fills `result` from a found
record: `NAME` copies `udev_root` first when `root` is set and then appends
`dev.name` (`result` starts empty, so without `root` it is just the name);
the other kinds copy the respective field. -/
def queryResult (query : QueryType) (root : Bool) (udev_root : String)
    (dev : Udevice) : String :=
  match query with
  | QueryType.NAME => (if root then udev_root else "") ++ dev.name
  | QueryType.SYMLINK => dev.symlink
  | QueryType.GROUP => dev.group
  | QueryType.OWNER => dev.owner
  | QueryType.NONE => ""

/-- Database-handle operations performed by the query CLI, in call order. -/
inductive DbOp
  | openRO
  | dump
  | exitDB
deriving Repr, DecidableEq

/-- Observable outcome of one `udev_user` invocation: the returned status,
the lines printed to standard output, and the database-handle trace. -/
structure UserOutcome where
  status : Int
  output : List String
  dbOps : List DbOp
deriving Repr, DecidableEq

/-- The usage text printed at the `help` label (body of the C string literal
elided: no claim depends on its content, only on the fact that usage is
printed). -/
def usageText : String := "Usage: [-pqrdVh]"

/-- Modelled from the spec: the version string `UDEV_VERSION` comes from
`udev_version.h`, which is outside this slice; its content is irrelevant to
the claims. -/
def UDEV_VERSION : String := "003"

/-- The version line printed by the `-V` branch. -/
def versionLine : String := "udev, version " ++ UDEV_VERSION

/-- `print_record`: the five `P:/N:/S:/O:/G:` lines plus one blank line per
record. -/
def print_record (path : String) (dev : Udevice) : List String :=
  ["P: " ++ path, "N: " ++ dev.name, "S: " ++ dev.symlink,
   "O: " ++ dev.owner, "G: " ++ dev.group, ""]

/-- Modelled from the spec: `udevdb_dump(print_record)` visits every record
in the database in the collaborator iteration order. -/
def udevdb_dump (db : UdevDB) : List String :=
  db.records.foldr (fun r acc => print_record r.1 r.2 ++ acc) []

/-- The part of `udev_user` after the option loop (`/* process options */`):
run the query when one was requested, else print the root when `-r` was
given, else fall to the `help` label.  `dbOpenRet` is the result of the
external `udevdb_open_ro()` call and `getDevFail` the failure code the
external `udevdb_get_dev` reports for a missing path. -/
def udev_user_process (dbOpenRet getDevFail : Int) (udev_root : String)
    (db : UdevDB) (query : QueryType) (root : Bool) (path : String) :
    UserOutcome :=
  if query ≠ QueryType.NONE then
    if path = "" then
      ⟨-EINVAL, ["query needs device path specified"], []⟩
    else if dbOpenRet ≠ 0 then
      ⟨-EACCES, ["unable to open udev database"], [DbOp.openRO]⟩
    else
      let r := udevdb_get_dev getDevFail path db
      if r.1 = 0 then
        ⟨r.1, [queryResult query root udev_root (r.2.getD default)],
          [DbOp.openRO, DbOp.exitDB]⟩
      else
        ⟨r.1, ["device not found in udev database"],
          [DbOp.openRO, DbOp.exitDB]⟩
  else if root then
    ⟨0, [udev_root], []⟩
  else
    ⟨-EINVAL, [usageText], []⟩

/-- One option as delivered by libc `getopt(argc, argv, "dp:q:rVh")`; the
tokenization itself is libc code outside this slice, so the loop is modelled
over the option stream. -/
inductive Opt
  | d
  | p (arg : String)
  | q (arg : String)
  | r
  | V
  | h
  | unknown
deriving Repr, DecidableEq

/-- The `while (1)` option loop of `udev_user`, one constructor per `case`
of the `switch`: `-p` copies its argument into `path`; a valid `-q` value
sets `query` and continues, an unknown value prints and returns `-EINVAL`;
`-r` sets `root`; `-d` opens the database, dumps it and returns; `-V`
returns 0; `-h` sets `retval = 0` and falls through to the `help` label;
an unrecognized option falls to `help` with the initial `retval = -EINVAL`.
When the options are exhausted, control falls to `udev_user_process`. -/
def udev_user_loop (dbOpenRet getDevFail : Int) (udev_root : String)
    (db : UdevDB) :
    List Opt → String → QueryType → Bool → UserOutcome
  | [], path, query, root =>
      udev_user_process dbOpenRet getDevFail udev_root db query root path
  | o :: rest, path, query, root =>
    match o with
    | Opt.p arg => udev_user_loop dbOpenRet getDevFail udev_root db
        rest arg query root
    | Opt.q arg =>
        if arg = "name" then
          udev_user_loop dbOpenRet getDevFail udev_root db
            rest path QueryType.NAME root
        else if arg = "symlink" then
          udev_user_loop dbOpenRet getDevFail udev_root db
            rest path QueryType.SYMLINK root
        else if arg = "owner" then
          udev_user_loop dbOpenRet getDevFail udev_root db
            rest path QueryType.OWNER root
        else if arg = "group" then
          udev_user_loop dbOpenRet getDevFail udev_root db
            rest path QueryType.GROUP root
        else
          ⟨-EINVAL, ["unknown query type"], []⟩
    | Opt.r => udev_user_loop dbOpenRet getDevFail udev_root db
        rest path query true
    | Opt.d =>
        if dbOpenRet ≠ 0 then
          ⟨-EACCES, ["unable to open udev database"], [DbOp.openRO]⟩
        else
          ⟨0, udevdb_dump db, [DbOp.openRO, DbOp.dump, DbOp.exitDB]⟩
    | Opt.V => ⟨0, [versionLine], []⟩
    | Opt.h => ⟨0, [usageText], []⟩
    | Opt.unknown => ⟨-EINVAL, [usageText], []⟩

/-- `udev_user` for a whole option stream, starting from the initial state
of the C locals (`path = ""`, `query = NONE`, `root = 0`). -/
def udev_user (dbOpenRet getDevFail : Int) (udev_root : String) (db : UdevDB)
    (opts : List Opt) : UserOutcome :=
  udev_user_loop dbOpenRet getDevFail udev_root db opts "" QueryType.NONE false

/-- The options whose `case` neither returns nor jumps to `help`: processing
continues with the next option. -/
def continuingOpt : Opt → Bool
  | Opt.p _ => true
  | Opt.q arg =>
      arg == "name" || arg == "symlink" || arg == "owner" || arg == "group"
  | Opt.r => true
  | _ => false

/-- The two entry modes of `main`. -/
inductive Mode
  | Hotplug
  | Query
deriving Repr, DecidableEq

/-- `argv[1][0] != '-'` of `main`; reading index 0 of an empty C string
yields the terminator, which is not the dash. -/
def beginsWithDash (s : String) : Bool :=
  match s.data with
  | [] => false
  | c :: _ => c == '-'

/-- The dispatch branch of `main`:
`argc == 2 && argv[1][0] != '-'` selects the hotplug path, everything else
the user/query path.  `args` is the full argument vector including the
program name (so `argc = args.length`). -/
def selectMode (args : List String) : Mode :=
  if args.length == 2 && !(beginsWithDash (args.getD 1 "")) then
    Mode.Hotplug
  else
    Mode.Query

/-! ## Helper lemmas -/

theorem hotplug_normalize_neg_einval : hotplug_normalize (-EINVAL) = 22 := by
  decide

theorem blacklisted_iff (s : String) :
    blacklisted s = true ↔ s ∈ subsystem_blacklist := by
  simp [blacklisted, subsystem_blacklist, List.any_eq_true]

theorem lookupDB_dbErase (p : String) (db : UdevDB) :
    lookupDB p (dbErase p db) = none := by
  simp only [lookupDB, dbErase]
  rw [List.find?_eq_none.mpr]
  · rfl
  · intro x hx
    have := (List.mem_filter.mp hx).2
    simpa using this

/-! ## C1 -/

/-- C1, counterexample: with `DEVPATH` unset in the environment the hotplug
path performs no action but returns status 22, not the zero status the claim
asserts. -/
theorem c1_counterexample :
    (udev_hotplug (fun _ _ => default) 0 "block"
        ⟨none, none⟩ ⟨[]⟩).status ≠ 0 := by
  decide

/-- C1 (amended): in hotplug mode, every expected early exit — `DEVPATH`
unset, devpath containing neither "class" nor "block", blacklisted
subsystem, or `ACTION` unset — performs no action (no collaborator dispatch,
database unchanged) and returns the positive status 22, the negation of the
initial `-EINVAL` result code, rather than zero. -/
theorem c1_early_exit (naming : String → String → Udevice) (dbInitRet : Int)
    (subsystem : String) (env : HotplugEnv) (db : UdevDB)
    (h : env.devpath = none
       ∨ (∃ d, env.devpath = some d ∧
            strstrB d "class" = false ∧ strstrB d "block" = false)
       ∨ blacklisted subsystem = true
       ∨ env.action = none) :
    udev_hotplug naming dbInitRet subsystem env db = ⟨22, db, none⟩ := by
  cases hdev : env.devpath with
  | none =>
    simp [udev_hotplug, udev_hotplug_raw, hdev, hotplug_normalize_neg_einval]
  | some d =>
    cases hcl : strstrB d "class" <;> cases hbk : strstrB d "block"
    · simp [udev_hotplug, udev_hotplug_raw, hdev, hcl, hbk,
        hotplug_normalize_neg_einval]
    all_goals {
      rcases h with h | ⟨d', hd', h1, h2⟩ | h | h
      · rw [hdev] at h
        exact absurd h (by simp)
      · rw [hdev] at hd'
        cases hd'
        rw [hcl] at h1
        rw [hbk] at h2
        simp_all
      · simp [udev_hotplug, udev_hotplug_raw, hdev, hcl, hbk, h,
          hotplug_normalize_neg_einval]
      · cases hbl : blacklisted subsystem <;>
          simp [udev_hotplug, udev_hotplug_raw, hdev, hcl, hbk, h, hbl,
            hotplug_normalize_neg_einval]
    }

/-- C1 witness. -/
theorem c1_early_exit_witness :
    udev_hotplug (fun _ _ => default) 0 "net"
      ⟨none, some "add"⟩ ⟨[]⟩ = ⟨22, ⟨[]⟩, none⟩ :=
  c1_early_exit (fun _ _ => default) 0 "net" ⟨none, some "add"⟩ ⟨[]⟩
    (Or.inl rfl)

/-! ## C3 -/

/-- C3: the final hotplug status is computed from the accumulated result code
by first mapping any positive value to 0 and then negating, so a run whose
accumulated code is non-negative reports 0 (success) and a run whose
accumulated code is negative reports a positive value (failure). -/
theorem c3_status_normalization (naming : String → String → Udevice)
    (dbInitRet : Int) (subsystem : String) (env : HotplugEnv) (db : UdevDB) :
    (udev_hotplug naming dbInitRet subsystem env db).status
      = hotplug_normalize
          (udev_hotplug_raw naming dbInitRet subsystem env db).1
    ∧ ∀ r : Int,
        hotplug_normalize r = -(if 0 < r then 0 else r)
        ∧ (0 < r → hotplug_normalize r = 0)
        ∧ (hotplug_normalize r = 0 ↔ 0 ≤ r)
        ∧ (r < 0 → 0 < hotplug_normalize r) := by
  refine ⟨rfl, fun r => ⟨rfl, ?_, ?_, ?_⟩⟩
  · intro hr
    simp [hotplug_normalize, hr]
  · unfold hotplug_normalize
    split <;> omega
  · intro hr
    unfold hotplug_normalize
    split <;> omega

/-- C3 witness. -/
theorem c3_status_normalization_witness :
    hotplug_normalize 5 = 0
    ∧ (hotplug_normalize 0 = 0 ↔ (0 : Int) ≤ 0)
    ∧ 0 < hotplug_normalize (-22) := by
  have h := c3_status_normalization (fun _ _ => default) 0 "block"
    ⟨some "/block/sda", some "add"⟩ ⟨[]⟩
  exact ⟨(h.2 5).2.1 (by decide), (h.2 0).2.2.1, (h.2 (-22)).2.2.2 (by decide)⟩

/-! ## C4 -/

/-- C4: for a hotplug event whose devpath contains "class" or "block", the
subsystem is rejected exactly when it is string-equal to one of
net, scsi_host, scsi_device, usb_host, pci_bus; on rejection no database
mutation and no add/remove collaborator call occurs (status 22, database
unchanged, nothing dispatched), and on a non-blacklisted subsystem with a
valid action the add collaborator is reached. -/
theorem c4_blacklist (naming : String → String → Udevice) (dbInitRet : Int)
    (subsystem d : String) (env : HotplugEnv) (db : UdevDB)
    (hdev : env.devpath = some d)
    (hkind : (strstrB d "class" || strstrB d "block") = true) :
    (blacklisted subsystem = true ↔
      subsystem ∈ ["net", "scsi_host", "scsi_device", "usb_host", "pci_bus"])
    ∧ (blacklisted subsystem = true →
        udev_hotplug naming dbInitRet subsystem env db = ⟨22, db, none⟩)
    ∧ (blacklisted subsystem = false → env.action = some "add" →
        dbInitRet = 0 →
        (udev_hotplug naming dbInitRet subsystem env db).dispatched
          = some ("add", d, subsystem)) := by
  refine ⟨blacklisted_iff subsystem, ?_, ?_⟩
  · intro hbl
    simp [udev_hotplug, udev_hotplug_raw, hdev, hkind, hbl,
      hotplug_normalize_neg_einval]
  · intro hbl hact hinit
    simp [udev_hotplug, udev_hotplug_raw, hdev, hkind, hbl, hact, hinit]

/-- C4 witness. -/
theorem c4_blacklist_witness :
    (blacklisted "net" = true ↔
      "net" ∈ ["net", "scsi_host", "scsi_device", "usb_host", "pci_bus"])
    ∧ udev_hotplug (fun _ _ => default) 0 "net"
        ⟨some "/class/net/eth0", some "add"⟩ ⟨[]⟩ = ⟨22, ⟨[]⟩, none⟩
    ∧ (udev_hotplug (fun _ _ => default) 0 "ide"
        ⟨some "/block/sda", some "add"⟩ ⟨[]⟩).dispatched
        = some ("add", "/block/sda", "ide") := by
  have h1 := c4_blacklist (fun _ _ => default) 0 "net" "/class/net/eth0"
    ⟨some "/class/net/eth0", some "add"⟩ ⟨[]⟩ rfl (by decide)
  have h2 := c4_blacklist (fun _ _ => default) 0 "ide" "/block/sda"
    ⟨some "/block/sda", some "add"⟩ ⟨[]⟩ rfl (by decide)
  exact ⟨h1.1, h1.2.1 (by decide), h2.2.2 (by decide) rfl rfl⟩

/-! ## C9 -/

/-- C9: for a devpath/subsystem pair accepted by the filters, dispatching
action "add" and then action "remove" with the same devpath and subsystem
leaves the database with no record for that path. -/
theorem c9_add_remove_roundtrip (naming : String → String → Udevice)
    (subsystem devpath : String) (db : UdevDB)
    (hkind : (strstrB devpath "class" || strstrB devpath "block") = true)
    (hbl : blacklisted subsystem = false) :
    lookupDB devpath
      (udev_hotplug naming 0 subsystem ⟨some devpath, some "remove"⟩
        (udev_hotplug naming 0 subsystem ⟨some devpath, some "add"⟩
          db).db).db = none := by
  simp [udev_hotplug, udev_hotplug_raw, hkind, hbl,
    udev_add_device, udev_remove_device]
  exact lookupDB_dbErase devpath _

/-- C9 witness. -/
theorem c9_add_remove_roundtrip_witness :
    lookupDB "/block/sda"
      (udev_hotplug (fun _ _ => default) 0 "ide"
        ⟨some "/block/sda", some "remove"⟩
        (udev_hotplug (fun _ _ => default) 0 "ide"
          ⟨some "/block/sda", some "add"⟩ ⟨[]⟩).db).db = none :=
  c9_add_remove_roundtrip (fun _ _ => default) "ide" "/block/sda" ⟨[]⟩
    (by decide) (by decide)

/-! ## C2 -/

/-- C2: the program selects hotplug mode exactly when the argument vector has
exactly two entries (program name plus one argument) and the second entry
does not begin with the flag marker, and it selects query mode in every
other case. -/
theorem c2_mode_selection (args : List String) :
    (selectMode args = Mode.Hotplug ↔
      ∃ prog arg, args = [prog, arg] ∧ arg.data.head? ≠ some '-')
    ∧ ((¬ ∃ prog arg, args = [prog, arg] ∧ arg.data.head? ≠ some '-') →
        selectMode args = Mode.Query) := by
  have hb : ∀ s : String, beginsWithDash s = true ↔ s.data.head? = some '-' := by
    intro s
    cases h : s.data <;> simp [beginsWithDash, h]
  have key : selectMode args = Mode.Hotplug ↔
      ∃ prog arg, args = [prog, arg] ∧ arg.data.head? ≠ some '-' := by
    rcases args with _ | ⟨p, _ | ⟨a, _ | ⟨c, rest⟩⟩⟩
    · simp [selectMode]
    · simp [selectMode]
    · cases hd : a.data with
      | nil =>
        have hsel : selectMode [p, a] = Mode.Hotplug := by
          simp [selectMode, beginsWithDash, hd]
        rw [hsel]
        constructor
        · intro _
          exact ⟨p, a, rfl, by simp [hd]⟩
        · intro _
          rfl
      | cons c cs =>
        by_cases hc : c = '-'
        · have hsel : selectMode [p, a] = Mode.Query := by
            simp [selectMode, beginsWithDash, hd, hc]
          rw [hsel]
          constructor
          · intro hq
            exact absurd hq (by simp)
          · rintro ⟨p', a', heq, hhead⟩
            injection heq with h1 h2
            injection h2 with h2 h3
            subst h2
            exact absurd (by simp [hd, hc]) hhead
        · have hsel : selectMode [p, a] = Mode.Hotplug := by
            simp [selectMode, beginsWithDash, hd, hc]
          rw [hsel]
          constructor
          · intro _
            exact ⟨p, a, rfl, by simp [hd, hc]⟩
          · intro _
            rfl
    · constructor
      · intro hh
        simp [selectMode] at hh
      · rintro ⟨p', a', heq, _⟩
        injection heq with _ h2
        injection h2 with _ h3
        exact absurd h3 (by simp)
  refine ⟨key, fun hne => ?_⟩
  cases hm : selectMode args with
  | Hotplug => exact absurd (key.mp hm) hne
  | Query => rfl

/-- C2 witness. -/
theorem c2_mode_selection_witness :
    selectMode ["udev", "block"] = Mode.Hotplug
    ∧ selectMode ["udev", "-p", "/sys/foo", "-q", "name"] = Mode.Query := by
  refine ⟨(c2_mode_selection ["udev", "block"]).1.mpr
    ⟨"udev", "block", rfl, by decide⟩, ?_⟩
  exact (c2_mode_selection ["udev", "-p", "/sys/foo", "-q", "name"]).2
    (by rintro ⟨p, a, heq, _⟩; injection heq with _ h; simp at h)

/-! ## C5 -/

/-- C5: for a query with a kind other than None whose path is found in the
database, the printed result is — for kind Name with the root flag, the
device root concatenated with the record name; for Name without it, the name
alone; for Symlink, Owner, Group the respective record field — and the query
succeeds with status 0. -/
theorem c5_query_result (dbOpenRet getDevFail : Int) (udev_root path : String)
    (db : UdevDB) (query : QueryType) (root : Bool) (dev : Udevice)
    (hq : query ≠ QueryType.NONE) (hp : path ≠ "") (hopen : dbOpenRet = 0)
    (hfound : lookupDB path db = some dev) :
    (udev_user_process dbOpenRet getDevFail udev_root db query root path
      = ⟨0, [queryResult query root udev_root dev],
          [DbOp.openRO, DbOp.exitDB]⟩)
    ∧ (query = QueryType.NAME → root = true →
        queryResult query root udev_root dev = udev_root ++ dev.name)
    ∧ (query = QueryType.NAME → root = false →
        queryResult query root udev_root dev = dev.name)
    ∧ (query = QueryType.SYMLINK →
        queryResult query root udev_root dev = dev.symlink)
    ∧ (query = QueryType.OWNER →
        queryResult query root udev_root dev = dev.owner)
    ∧ (query = QueryType.GROUP →
        queryResult query root udev_root dev = dev.group) := by
  subst hopen
  refine ⟨?_, ?_, ?_, ?_, ?_, ?_⟩
  · simp [udev_user_process, hq, hp, udevdb_get_dev, hfound]
  · intro hn hr
    subst hn; subst hr
    simp [queryResult]
  · intro hn hr
    subst hn; subst hr
    simp [queryResult]
  · intro hn
    subst hn
    simp [queryResult]
  · intro hn
    subst hn
    simp [queryResult]
  · intro hn
    subst hn
    simp [queryResult]

/-- C5 witness. -/
theorem c5_query_result_witness :
    (udev_user_process 0 (-19) "/dev/"
        ⟨[("/block/sda", ⟨"sda", "", "", ""⟩)]⟩ QueryType.NAME true
        "/block/sda"
      = ⟨0, [queryResult QueryType.NAME true "/dev/" ⟨"sda", "", "", ""⟩],
          [DbOp.openRO, DbOp.exitDB]⟩)
    ∧ queryResult QueryType.NAME true "/dev/" ⟨"sda", "", "", ""⟩
        = "/dev/" ++ "sda" := by
  have h := c5_query_result 0 (-19) "/dev/" "/block/sda"
    ⟨[("/block/sda", ⟨"sda", "", "", ""⟩)]⟩ QueryType.NAME true
    ⟨"sda", "", "", ""⟩ (by decide) (by decide) rfl (by decide)
  exact ⟨h.1, h.2.1 rfl rfl⟩

/-! ## C7 -/

/-- C7: for a query whose path has no database entry, the CLI prints
"device not found in udev database" and propagates the lookup failure code
as the process result; and whenever the database was opened for a query, the
handle is released afterwards (the trace ends with the close call) whether or
not the lookup succeeded. -/
theorem c7_not_found (getDevFail : Int) (udev_root path : String)
    (db : UdevDB) (query : QueryType) (root : Bool)
    (hq : query ≠ QueryType.NONE) (hp : path ≠ "")
    (hmiss : lookupDB path db = none) (hfail : getDevFail ≠ 0) :
    (udev_user_process 0 getDevFail udev_root db query root path
      = ⟨getDevFail, ["device not found in udev database"],
          [DbOp.openRO, DbOp.exitDB]⟩)
    ∧ ∀ db' : UdevDB,
        (udev_user_process 0 getDevFail udev_root db' query root path).dbOps
          = [DbOp.openRO, DbOp.exitDB] := by
  constructor
  · simp [udev_user_process, hq, hp, udevdb_get_dev, hmiss, hfail]
  · intro db'
    cases hl : lookupDB path db' with
    | none => simp [udev_user_process, hq, hp, udevdb_get_dev, hl, hfail]
    | some dev => simp [udev_user_process, hq, hp, udevdb_get_dev, hl]

/-- C7 witness. -/
theorem c7_not_found_witness :
    (udev_user_process 0 (-19) "/dev/" ⟨[]⟩ QueryType.NAME false "/block/sda"
      = ⟨-19, ["device not found in udev database"],
          [DbOp.openRO, DbOp.exitDB]⟩)
    ∧ (udev_user_process 0 (-19) "/dev/"
        ⟨[("/block/sda", ⟨"sda", "", "", ""⟩)]⟩ QueryType.NAME false
        "/block/sda").dbOps = [DbOp.openRO, DbOp.exitDB] := by
  have h := c7_not_found (-19) "/dev/" "/block/sda" ⟨[]⟩ QueryType.NAME false
    (by decide) (by decide) (by decide) (by decide)
  exact ⟨h.1, h.2 ⟨[("/block/sda", ⟨"sda", "", "", ""⟩)]⟩⟩

/-! ## C8 -/

/-- C8: whenever the option scan reaches a `-q` value outside
name/symlink/owner/group (all options before it being ones that continue the
scan), the CLI prints "unknown query type" and returns the error status
`-EINVAL`, with an empty database-handle trace: the database is never
opened. -/
theorem c8_unknown_query_type (dbOpenRet getDevFail : Int)
    (udev_root : String) (db : UdevDB) (pre rest : List Opt) (bad : String)
    (path : String) (query : QueryType) (root : Bool)
    (hpre : ∀ o ∈ pre, continuingOpt o = true)
    (hbad : bad ≠ "name" ∧ bad ≠ "symlink" ∧ bad ≠ "owner" ∧ bad ≠ "group") :
    udev_user_loop dbOpenRet getDevFail udev_root db
        (pre ++ Opt.q bad :: rest) path query root
      = ⟨-EINVAL, ["unknown query type"], []⟩ := by
  induction pre generalizing path query root with
  | nil =>
    simp [udev_user_loop, hbad.1, hbad.2.1, hbad.2.2.1, hbad.2.2.2]
  | cons o pre ih =>
    have hco : continuingOpt o = true := hpre o (List.mem_cons_self o pre)
    have hpre' : ∀ o ∈ pre, continuingOpt o = true := fun x hx =>
      hpre x (List.mem_cons_of_mem o hx)
    cases o with
    | p arg =>
      simpa [udev_user_loop] using ih arg query root hpre'
    | q arg =>
      simp only [continuingOpt] at hco
      rcases Bool.or_eq_true_iff.mp hco with hco | hco4
      rotate_left
      · have harg : arg = "group" := by simpa using hco4
        simpa [udev_user_loop, harg] using ih path QueryType.GROUP root hpre'
      rcases Bool.or_eq_true_iff.mp hco with hco | hco3
      rotate_left
      · have harg : arg = "owner" := by simpa using hco3
        simpa [udev_user_loop, harg] using ih path QueryType.OWNER root hpre'
      rcases Bool.or_eq_true_iff.mp hco with hco1 | hco2
      · have harg : arg = "name" := by simpa using hco1
        simpa [udev_user_loop, harg] using ih path QueryType.NAME root hpre'
      · have harg : arg = "symlink" := by simpa using hco2
        have hns : arg ≠ "name" := by simp [harg]
        simpa [udev_user_loop, harg] using ih path QueryType.SYMLINK root hpre'
    | r =>
      simpa [udev_user_loop] using ih path query true hpre'
    | d => simp [continuingOpt] at hco
    | V => simp [continuingOpt] at hco
    | h => simp [continuingOpt] at hco
    | unknown => simp [continuingOpt] at hco

/-- C8 witness. -/
theorem c8_unknown_query_type_witness :
    udev_user_loop 0 (-19) "/dev/" ⟨[]⟩
        ([Opt.p "/block/sda", Opt.r] ++ Opt.q "bogus" :: [Opt.d])
        "" QueryType.NONE false
      = ⟨-EINVAL, ["unknown query type"], []⟩ :=
  c8_unknown_query_type 0 (-19) "/dev/" ⟨[]⟩ [Opt.p "/block/sda", Opt.r]
    [Opt.d] "bogus" "" QueryType.NONE false (by decide) (by decide)

/-! ## C6 -/

/-- C6, counterexample: `-q name` does not short-circuit the option loop — a
`-p` flag placed after it is still processed (here it supplies the device
path and the query succeeds), so the run differs from the run with the
later flag dropped, contradicting the claim that `-q` returns immediately
upon first use and later flags are ignored. -/
theorem c6_counterexample :
    udev_user 0 (-19) "/dev/" ⟨[("/block/sda", ⟨"sda", "", "", ""⟩)]⟩
        [Opt.q "name", Opt.p "/block/sda"]
      ≠ udev_user 0 (-19) "/dev/" ⟨[("/block/sda", ⟨"sda", "", "", ""⟩)]⟩
        [Opt.q "name"] := by
  decide

/-- C6 (amended): in the option loop, `-d` short-circuits all remaining
option processing (its result does not depend on the remaining options), and
`-q` short-circuits only when its value is not one of the four valid query
types (then it returns the unknown-query-type error immediately); a `-q`
with a valid value sets the query kind and processing continues with the
remaining options. -/
theorem c6_short_circuit (dbOpenRet getDevFail : Int) (udev_root : String)
    (db : UdevDB) (rest : List Opt) (path : String) (query : QueryType)
    (root : Bool) (bad : String)
    (hbad : bad ≠ "name" ∧ bad ≠ "symlink" ∧ bad ≠ "owner" ∧ bad ≠ "group") :
    (udev_user_loop dbOpenRet getDevFail udev_root db (Opt.d :: rest)
        path query root
      = udev_user_loop dbOpenRet getDevFail udev_root db [Opt.d]
        path query root)
    ∧ (udev_user_loop dbOpenRet getDevFail udev_root db (Opt.q bad :: rest)
        path query root
      = ⟨-EINVAL, ["unknown query type"], []⟩)
    ∧ (udev_user_loop dbOpenRet getDevFail udev_root db
        (Opt.q "name" :: rest) path query root
      = udev_user_loop dbOpenRet getDevFail udev_root db rest
        path QueryType.NAME root) := by
  refine ⟨rfl, ?_, ?_⟩
  · simp [udev_user_loop, hbad.1, hbad.2.1, hbad.2.2.1, hbad.2.2.2]
  · simp [udev_user_loop]

/-- C6 witness. -/
theorem c6_short_circuit_witness :
    (udev_user_loop 0 (-19) "/dev/" ⟨[]⟩ [Opt.d, Opt.r]
        "" QueryType.NONE false
      = udev_user_loop 0 (-19) "/dev/" ⟨[]⟩ [Opt.d] "" QueryType.NONE false)
    ∧ (udev_user_loop 0 (-19) "/dev/" ⟨[]⟩ [Opt.q "bogus", Opt.r]
        "" QueryType.NONE false
      = ⟨-EINVAL, ["unknown query type"], []⟩)
    ∧ (udev_user_loop 0 (-19) "/dev/" ⟨[]⟩ [Opt.q "name", Opt.r]
        "" QueryType.NONE false
      = udev_user_loop 0 (-19) "/dev/" ⟨[]⟩ [Opt.r]
        "" QueryType.NAME false) :=
  c6_short_circuit 0 (-19) "/dev/" ⟨[]⟩ [Opt.r] "" QueryType.NONE false
    "bogus" (by decide)

/-! ## C10 -/

/-- C10: in the option loop, `-V` and `-h` each terminate option processing
immediately upon first use with status 0 — the outcome does not depend on
any options that follow (so later `-q`, `-p`, `-d`, `-r` are never
processed) and the database-handle trace is empty (no database access). -/
theorem c10_version_help_preempt (dbOpenRet getDevFail : Int)
    (udev_root : String) (db : UdevDB) (rest : List Opt) (path : String)
    (query : QueryType) (root : Bool) :
    (udev_user_loop dbOpenRet getDevFail udev_root db (Opt.V :: rest)
        path query root = ⟨0, [versionLine], []⟩)
    ∧ (udev_user_loop dbOpenRet getDevFail udev_root db (Opt.h :: rest)
        path query root = ⟨0, [usageText], []⟩) :=
  ⟨rfl, rfl⟩

end Udev
